import Mathlib

/-!
Verification of the `optionalize_macro` crate (src/src/lib.rs).

The crate exposes one procedural derive, `derive_optionalize`, which takes a
parsed `DeriveInput` and emits a new struct declaration: the struct's name
with `"Optional"` appended, each field's type wrapped in `Option<...>` unless
its type is a path whose last segment is the identifier `Option`, in which
case the type is kept as-is.  Non-struct inputs produce a compile error.

We shallowly embed the `syn` data the macro inspects and the token shapes it
emits, and prove the spec's claims about the transform.
-/

namespace OptionalizeMacro

mutual

/-- A field type, mirroring the fragment of `syn::Type` the macro
distinguishes: `Type::Path` (a possibly qualified path of segments, each with
optional generic arguments) versus every other type shape (tuples, references,
arrays, ...), which the macro treats uniformly ("wrap non-path types"). -/
inductive Ty : Type where
  | path : List Seg → Ty
  | tuple : List Ty → Ty
  | reference : Ty → Ty
  | array : Ty → Nat → Ty

/-- A path segment, mirroring `syn::PathSegment`: an identifier plus its
angle-bracketed generic arguments (empty when there are none). -/
inductive Seg : Type where
  | mk : String → List Ty → Seg

end

/-- The identifier of a path segment (`syn::PathSegment::ident`). -/
def Seg.ident : Seg → String
  | .mk s _ => s

/-- The generic arguments of a path segment. -/
def Seg.args : Seg → List Ty
  | .mk _ ts => ts

/-- A visibility qualifier, mirroring `syn::Visibility`: `pub`, `pub(...)`
restricted, or inherited (no qualifier written, i.e. private). -/
inductive Visibility : Type where
  | pub : Visibility
  | restricted : String → Visibility
  | inherited : Visibility
  deriving DecidableEq, Repr

/-- A struct field, mirroring `syn::Field`: visibility, an optional
identifier (`None` for the positional fields of a tuple struct), and a type.
The generated output fields reuse this shape: the macro emits
`#field_name: #field_type` with no visibility tokens, which in Rust syntax is
inherited (private) visibility. -/
structure Field : Type where
  vis : Visibility
  ident : Option String
  ty : Ty

/-- The field list of a struct, mirroring `syn::Fields`: named (brace) fields,
unnamed (tuple) fields, or a unit struct. -/
inductive Fields : Type where
  | named : List Field → Fields
  | unnamed : List Field → Fields
  | unit : Fields

/-- The fields iterated by `fields.iter()` in the macro (all three `Fields`
variants iterate their field list; `Unit` has none). -/
def Fields.list : Fields → List Field
  | .named fs => fs
  | .unnamed fs => fs
  | .unit => []

/-- The body of a declaration, mirroring `syn::Data`: a struct, an enum, or a
union.  The macro only looks at which variant it is, so the enum/union
payloads are reduced to the parts relevant here. -/
inductive Data : Type where
  | struct : Fields → Data
  | enum : List String → Data
  | union : List Field → Data

/-- A parsed derive input, mirroring the parts of `syn::DeriveInput` the macro
reads (plus the struct's own visibility, which it notably never reads). -/
structure DeriveInput : Type where
  ident : String
  vis : Visibility
  data : Data

/-- The emitted struct declaration: the macro's `quote!` output
`pub struct #optional_struct_name { #( #optional_fields, )* }`, as structure.
The emitted visibility is the literal `pub` token in the template. -/
structure GenStruct : Type where
  vis : Visibility
  name : String
  fields : List Field

/-- `Option<#field_type>`: the token shape the macro produces when wrapping,
a path with the single segment `Option` applied to the original type. -/
def Ty.wrapOption (t : Ty) : Ty := Ty.path [Seg.mk "Option" [t]]

/-- The macro's already-an-`Option` check on a field type:
`if let Type::Path(TypePath { path, .. }) = field_type`
`{ path.segments.last().map(|s| s.ident == "Option").unwrap_or(false) }`
and `false` for every non-path type. -/
def Ty.isOptionCheck : Ty → Bool
  | .path segs => ((segs.getLast?).map (fun s => s.ident == "Option")).getD false
  | _ => false

/-- The per-field type projection inside the macro's `map` closure: keep the
type when the check fires, otherwise wrap it in `Option<...>`. -/
def optionalizeTy (t : Ty) : Ty :=
  if t.isOptionCheck then t else t.wrapOption

/-- The tokens the macro emits for one field: `#field_name: <projected type>`.
No visibility tokens are emitted, so the generated field's visibility is
inherited. -/
def optionalizeField (f : Field) : Field :=
  { vis := Visibility.inherited, ident := f.ident, ty := optionalizeTy f.ty }

/-- The compile error produced for non-struct inputs
(`syn::Error::new_spanned(input, "Optionalize can only be used on structs")`). -/
def notAStructMsg : String := "Optionalize can only be used on structs"

/-- `derive_optionalize` from src/src/lib.rs: parse is done (we receive the
`DeriveInput`); compute the derived name `{struct_name}Optional`; take the
fields if the data is a struct, otherwise return the compile error; map each
field through the `Option`-wrapping closure; emit
`pub struct #optional_struct_name { ... }`. -/
def derive_optionalize (input : DeriveInput) : Except String GenStruct :=
  let struct_name := input.ident
  let optional_struct_name := struct_name ++ "Optional"
  match input.data with
  | Data.struct fields =>
      Except.ok
        { vis := Visibility.pub
          name := optional_struct_name
          fields := fields.list.map optionalizeField }
  | _ => Except.error notAStructMsg

/-! ### Concrete inputs used in examples, witnesses and counterexamples -/

/-- The type `i32`, a single-segment path with no generic arguments. -/
def tyI32 : Ty := Ty.path [Seg.mk "i32" []]

/-- The type `String`, a single-segment path with no generic arguments. -/
def tyString : Ty := Ty.path [Seg.mk "String" []]

/-- The type `Option<String>`. -/
def tyOptString : Ty := Ty.path [Seg.mk "Option" [tyString]]

/-- The field list of the example struct
`Item { id: i32, label: String, note: Option<String> }`. -/
def itemFields : Fields :=
  Fields.named
    [ { vis := Visibility.pub, ident := some "id", ty := tyI32 }
    , { vis := Visibility.pub, ident := some "label", ty := tyString }
    , { vis := Visibility.pub, ident := some "note", ty := tyOptString } ]

/-- The example input struct `Item`. -/
def itemInput : DeriveInput :=
  { ident := "Item", vis := Visibility.pub, data := Data.struct itemFields }

/-- The expected output for `itemInput`:
`pub struct ItemOptional { id: Option<i32>, label: Option<String>, note: Option<String> }`. -/
def itemOutput : GenStruct :=
  { vis := Visibility.pub
    name := "ItemOptional"
    fields :=
      [ { vis := Visibility.inherited, ident := some "id", ty := tyI32.wrapOption }
      , { vis := Visibility.inherited, ident := some "label", ty := tyString.wrapOption }
      , { vis := Visibility.inherited, ident := some "note", ty := tyOptString } ] }

/-- A tuple-style (unnamed-fields) struct declaration: `pub struct Pair(pub i32);`. -/
def tupleInput : DeriveInput :=
  { ident := "Pair", vis := Visibility.pub
    data := Data.struct (Fields.unnamed [{ vis := Visibility.pub, ident := none, ty := tyI32 }]) }

/-- An enumeration declaration `enum E { A, B }`. -/
def enumInput : DeriveInput :=
  { ident := "E", vis := Visibility.pub, data := Data.enum ["A", "B"] }

/-- A private struct with a public field: `struct V { pub id: i32 }`. -/
def visInput : DeriveInput :=
  { ident := "V", vis := Visibility.inherited
    data := Data.struct (Fields.named [{ vis := Visibility.pub, ident := some "id", ty := tyI32 }]) }

/-- A private struct with a private field: `struct Hidden { x: i32 }`. -/
def privInput : DeriveInput :=
  { ident := "Hidden", vis := Visibility.inherited
    data := Data.struct
      (Fields.named [{ vis := Visibility.inherited, ident := some "x", ty := tyI32 }]) }

/-- An empty braced struct `struct Empty {}`. -/
def emptyInput : DeriveInput :=
  { ident := "Empty", vis := Visibility.pub, data := Data.struct (Fields.named []) }

/-! ### Helper lemmas -/

/-- On a struct input, `derive_optionalize` succeeds and produces the suffixed
name, `pub` visibility, and the field list mapped through the per-field
projection. -/
lemma derive_optionalize_struct (inp : DeriveInput) (fs : Fields)
    (h : inp.data = Data.struct fs) :
    derive_optionalize inp = Except.ok
      { vis := Visibility.pub
        name := inp.ident ++ "Optional"
        fields := fs.list.map optionalizeField } := by
  unfold derive_optionalize
  rw [h]

/-- A wrapped type passes the macro's `Option` check: its last (only) path
segment is `Option`. -/
lemma isOptionCheck_wrapOption (t : Ty) : (t.wrapOption).isOptionCheck = true := rfl

/-- A projected type always passes the macro's `Option` check: it is either
kept because the check already fired, or it is wrapped into a path whose last
(only) segment is `Option`. -/
lemma isOptionCheck_optionalizeTy (t : Ty) : (optionalizeTy t).isOptionCheck = true := by
  unfold optionalizeTy
  by_cases h : t.isOptionCheck = true
  · simp [h]
  · simp [h, isOptionCheck_wrapOption]

/-- A type that passes the `Option` check is left unchanged by the projection. -/
lemma optionalizeTy_of_check (t : Ty) (h : t.isOptionCheck = true) : optionalizeTy t = t := by
  simp [optionalizeTy, h]

/-- The per-field projection is idempotent. -/
lemma optionalizeField_idem (f : Field) : optionalizeField (optionalizeField f) = optionalizeField f := by
  simp [optionalizeField, optionalizeTy_of_check _ (isOptionCheck_optionalizeTy f.ty)]

/-- Mapping the per-field projection over an already-projected field list is
the identity. -/
lemma map_optionalizeField_idem (l : List Field) :
    (l.map optionalizeField).map optionalizeField = l.map optionalizeField := by
  induction l with
  | nil => rfl
  | cons a l ih => simp [ih, optionalizeField_idem]

/-! ### Claims -/

/-- C1: for every field of an accepted input struct, the derived field's type
is the original type expression when that expression already passes the
`Option` check (no double-wrapping), and otherwise is the original type
expression wrapped exactly once in `Option<...>`. -/
theorem wrapping_correctness (inp : DeriveInput) (fs : Fields)
    (h : inp.data = Data.struct fs) :
    ∃ g, derive_optionalize inp = Except.ok g ∧
      g.fields.map Field.ty =
        fs.list.map (fun f => if f.ty.isOptionCheck then f.ty else f.ty.wrapOption) := by
  refine ⟨_, derive_optionalize_struct inp fs h, ?_⟩
  simp [List.map_map, Function.comp, optionalizeField, optionalizeTy]

/-- Witness for C1: the `Item` example, where `id` and `label` are wrapped
and `note` (already `Option<String>`) is kept. -/
theorem wrapping_correctness_witness :
    ∃ g, derive_optionalize itemInput = Except.ok g ∧
      g.fields.map Field.ty =
        itemFields.list.map (fun f => if f.ty.isOptionCheck then f.ty else f.ty.wrapOption) :=
  wrapping_correctness itemInput itemFields rfl

/-- Counterexample to C2 as stated: a tuple-style declaration
`pub struct Pair(pub i32);` is NOT rejected — it is `Data::Struct` in `syn`,
so the macro accepts it and emits a declaration whose single field carries no
name (the `quote!` interpolation of a `None` identifier emits nothing, giving
the malformed field tokens `: Option<i32>`). -/
theorem tuple_not_rejected :
    derive_optionalize tupleInput ≠ Except.error notAStructMsg ∧
    derive_optionalize tupleInput = Except.ok
      { vis := Visibility.pub
        name := "PairOptional"
        fields := [{ vis := Visibility.inherited, ident := none, ty := tyI32.wrapOption }] } := by
  constructor
  · intro h
    exact Except.noConfusion h
  · rfl

/-- C2 (amended): for every input declaration that is an enumeration or a
union declaration, the transform fails with the single not-a-struct compile
error and emits no type declaration.  (Tuple-style and unit struct
declarations are accepted, since they are struct declarations.) -/
theorem non_struct_rejected (inp : DeriveInput)
    (h : (∃ vs, inp.data = Data.enum vs) ∨ (∃ ufs, inp.data = Data.union ufs)) :
    derive_optionalize inp = Except.error notAStructMsg := by
  unfold derive_optionalize
  obtain ⟨vs, h⟩ | ⟨ufs, h⟩ := h <;> rw [h]

/-- Witness for C2 (amended): the enumeration `enum E { A, B }` is rejected. -/
theorem non_struct_rejected_witness :
    derive_optionalize enumInput = Except.error notAStructMsg :=
  non_struct_rejected enumInput (Or.inl ⟨["A", "B"], rfl⟩)

/-- Counterexample to C3 as stated: for `struct V { pub id: i32 }`, the source
field is `pub` but the generated field carries inherited (private)
visibility — the macro emits `#field_name: #field_type` with no visibility
tokens, so field visibility is NOT copied. -/
theorem vis_not_copied :
    derive_optionalize visInput = Except.ok
      { vis := Visibility.pub
        name := "VOptional"
        fields := [{ vis := Visibility.inherited, ident := some "id", ty := tyI32.wrapOption }] } ∧
    Visibility.inherited ≠ Visibility.pub := by
  exact ⟨rfl, by decide⟩

/-- C3 (amended): field visibility is not copied — every generated field is
emitted with no visibility qualifier (inherited, i.e. private), whatever the
source field's visibility was; the generated type declaration itself is
always `pub`, hence exposed at least as broadly as the original type. -/
theorem field_vis_dropped (inp : DeriveInput) (fs : Fields)
    (h : inp.data = Data.struct fs) :
    ∃ g, derive_optionalize inp = Except.ok g ∧ g.vis = Visibility.pub ∧
      ∀ f ∈ g.fields, f.vis = Visibility.inherited := by
  refine ⟨_, derive_optionalize_struct inp fs h, rfl, ?_⟩
  intro f hf
  obtain ⟨f0, _, rfl⟩ := List.mem_map.mp hf
  rfl

/-- Witness for C3 (amended): the struct `V` from the counterexample. -/
theorem field_vis_dropped_witness :
    ∃ g, derive_optionalize visInput = Except.ok g ∧ g.vis = Visibility.pub ∧
      ∀ f ∈ g.fields, f.vis = Visibility.inherited :=
  field_vis_dropped visInput _ rfl

/-- C4: whenever the derive succeeds on an input named `N`, the generated
struct's name is exactly `N ++ "Optional"`. -/
theorem name_derivation (inp : DeriveInput) (g : GenStruct)
    (h : derive_optionalize inp = Except.ok g) :
    g.name = inp.ident ++ "Optional" := by
  cases hd : inp.data with
  | struct fs =>
      rw [derive_optionalize_struct inp fs hd] at h
      injection h with h2
      subst h2
      rfl
  | enum vs => simp [derive_optionalize, hd] at h
  | union ufs => simp [derive_optionalize, hd] at h

/-- Witness for C4: `Item` yields `"ItemOptional"`. -/
theorem name_derivation_witness :
    itemOutput.name = itemInput.ident ++ "Optional" :=
  name_derivation itemInput itemOutput rfl

/-- C5: for every accepted input struct, the generated struct has the same
number of fields, with the same field names, in the same order. -/
theorem fields_preserved (inp : DeriveInput) (fs : Fields)
    (h : inp.data = Data.struct fs) :
    ∃ g, derive_optionalize inp = Except.ok g ∧
      g.fields.length = fs.list.length ∧
      g.fields.map Field.ident = fs.list.map Field.ident := by
  refine ⟨_, derive_optionalize_struct inp fs h, ?_, ?_⟩
  · simp
  · simp [List.map_map, Function.comp, optionalizeField]

/-- Witness for C5: the `Item` example. -/
theorem fields_preserved_witness :
    ∃ g, derive_optionalize itemInput = Except.ok g ∧
      g.fields.length = itemFields.list.length ∧
      g.fields.map Field.ident = itemFields.list.map Field.ident :=
  fields_preserved itemInput itemFields rfl

/-- C6: re-applying the derive to the struct it generated (whose every field
already passes the `Option` check) changes only the type name — suffixing
`"Optional"` again — and returns the field list unchanged, every field's type
expression included. -/
theorem reapplication (inp : DeriveInput) (g : GenStruct)
    (h : derive_optionalize inp = Except.ok g) :
    derive_optionalize { ident := g.name, vis := g.vis, data := Data.struct (Fields.named g.fields) } =
      Except.ok { vis := Visibility.pub, name := g.name ++ "Optional", fields := g.fields } := by
  cases hd : inp.data with
  | struct fs =>
      rw [derive_optionalize_struct inp fs hd] at h
      injection h with h2
      subst h2
      rw [derive_optionalize_struct _ (Fields.named (fs.list.map optionalizeField)) rfl]
      simp [Fields.list, map_optionalizeField_idem]
      exact fun a _ => optionalizeField_idem a
  | enum vs => simp [derive_optionalize, hd] at h
  | union ufs => simp [derive_optionalize, hd] at h

/-- Witness for C6: re-applying the derive to `ItemOptional` yields
`ItemOptionalOptional` with the identical field list. -/
theorem reapplication_witness :
    derive_optionalize
        { ident := itemOutput.name, vis := itemOutput.vis
          data := Data.struct (Fields.named itemOutput.fields) } =
      Except.ok
        { vis := Visibility.pub
          name := itemOutput.name ++ "Optional"
          fields := itemOutput.fields } :=
  reapplication itemInput itemOutput rfl

/-- C7: an accepted input struct with zero fields yields, without error, a
generated struct with zero fields and the derived name. -/
theorem empty_record (inp : DeriveInput)
    (h : inp.data = Data.struct (Fields.named [])) :
    derive_optionalize inp = Except.ok
      { vis := Visibility.pub, name := inp.ident ++ "Optional", fields := [] } :=
  derive_optionalize_struct inp (Fields.named []) h

/-- Witness for C7: `struct Empty {}` yields `pub struct EmptyOptional {}`. -/
theorem empty_record_witness :
    derive_optionalize emptyInput = Except.ok
      { vis := Visibility.pub, name := emptyInput.ident ++ "Optional", fields := [] } :=
  empty_record emptyInput rfl

/-- C8: on `Item { id: i32, label: String, note: Option<String> }` the derive
produces `pub struct ItemOptional { id: Option<i32>, label: Option<String>,
note: Option<String> }`, field order preserved and `note`'s type unchanged. -/
theorem end_to_end_item :
    derive_optionalize itemInput = Except.ok itemOutput := rfl

/-- C9: a field type passes the `Option` check exactly when it is a path type
whose last segment's identifier is `Option`, whatever the path prefix: any
such path (e.g. `std::option::Option<T>`, or an unrelated `mymod::Option`) is
left unchanged by the projection; a path whose last segment is not `Option`
is wrapped; and every non-path type (tuple, reference, array) is wrapped. -/
theorem option_detection :
    (∀ (pre : List Seg) (args : List Ty),
        optionalizeTy (Ty.path (pre ++ [Seg.mk "Option" args])) =
          Ty.path (pre ++ [Seg.mk "Option" args]))
  ∧ (∀ segs : List Seg, (∀ s, segs.getLast? = some s → s.ident ≠ "Option") →
        optionalizeTy (Ty.path segs) = (Ty.path segs).wrapOption)
  ∧ (∀ ts, optionalizeTy (Ty.tuple ts) = (Ty.tuple ts).wrapOption)
  ∧ (∀ t, optionalizeTy (Ty.reference t) = (Ty.reference t).wrapOption)
  ∧ (∀ t n, optionalizeTy (Ty.array t n) = (Ty.array t n).wrapOption) := by
  refine ⟨?_, ?_, fun ts => rfl, fun t => rfl, fun t n => rfl⟩
  · intro pre args
    simp [optionalizeTy, Ty.isOptionCheck, List.getLast?_concat, Seg.ident]
  · intro segs h
    cases hl : segs.getLast? with
    | none => simp [optionalizeTy, Ty.isOptionCheck, hl]
    | some s => simp [optionalizeTy, Ty.isOptionCheck, hl, h s hl]

/-- Witness for C9: `std::option::Option<String>` and `mymod::Option` pass
through unchanged, while `i32` and a tuple type are wrapped. -/
theorem option_detection_witness :
    optionalizeTy (Ty.path [Seg.mk "std" [], Seg.mk "option" [], Seg.mk "Option" [tyString]]) =
        Ty.path [Seg.mk "std" [], Seg.mk "option" [], Seg.mk "Option" [tyString]]
  ∧ optionalizeTy (Ty.path [Seg.mk "mymod" [], Seg.mk "Option" []]) =
        Ty.path [Seg.mk "mymod" [], Seg.mk "Option" []]
  ∧ optionalizeTy tyI32 = tyI32.wrapOption
  ∧ optionalizeTy (Ty.tuple [tyI32, tyString]) = (Ty.tuple [tyI32, tyString]).wrapOption :=
  ⟨option_detection.1 [Seg.mk "std" [], Seg.mk "option" []] [tyString],
   option_detection.1 [Seg.mk "mymod" []] [],
   option_detection.2.1 [Seg.mk "i32" []]
     (by
       intro s hs
       simp at hs
       subst hs
       decide),
   option_detection.2.2.1 [tyI32, tyString]⟩

/-- C10: the generated type declaration is always emitted with the `pub`
qualifier, independent of the original struct's visibility. -/
theorem derived_always_pub (inp : DeriveInput) (fs : Fields)
    (h : inp.data = Data.struct fs) :
    ∃ g, derive_optionalize inp = Except.ok g ∧ g.vis = Visibility.pub :=
  ⟨_, derive_optionalize_struct inp fs h, rfl⟩

/-- Witness for C10: the private struct `Hidden` yields a `pub` derived
struct. -/
theorem derived_always_pub_witness :
    ∃ g, derive_optionalize privInput = Except.ok g ∧ g.vis = Visibility.pub :=
  derived_always_pub privInput _ rfl

end OptionalizeMacro
